import Mathlib

/-!
Shallow embedding of the SVG-to-Code-Converter front-end logic.

The repository holds two near-duplicate client-side implementations:

* `src/script.js` — a shared script that detects at runtime which page it
  runs on.  On the "SVG to code" page (where the `svgCode` textarea and
  the `copyBtn` exist) it installs `processSvgFile`; on the "image to SVG"
  page (where `downloadBtn` exists) it installs `processImageFile` and
  overrides `window.resetView`.
* `src/unnamed/part_000` — a self-contained script for an SVG page with
  `handleFile`, its own theme toggler and its own reset button handler.

The embedding models the DOM/view state touched by these scripts as plain
records, browser callbacks (FileReader results, image decoding, dialog
resolution) as explicit parameters, and the external XML parser verdict
(`doc.querySelector` of the parser-error marker after `DOMParser.parseFromString`)
as a boolean oracle `parseOk` over the decoded file text.
-/

/-- A candidate file as the scripts see it: only its MIME `type` string is
inspected before a read is started (`file.type` in the source). -/
structure JsFile where
  type : String
deriving DecidableEq

/-- Outcome of a `FileReader` read (`readAsText` or `readAsDataURL`):
`ok content` models the `onload` callback receiving `e.target.result`
(for `readAsText`, the file bytes decoded to text; for `readAsDataURL`,
the data URI); `err` models the `onerror` callback. -/
inductive ReadResult where
  | ok (content : String)
  | err
deriving DecidableEq

/-- Outcome of decoding a raster image via a fresh `Image` element:
`ok width height` models `img.onload` reporting the intrinsic pixel
dimensions; `err` models `img.onerror`. -/
inductive DecodeResult where
  | ok (width height : Nat)
  | err
deriving DecidableEq

/-- The transient toast set by `showNotification(message, type)` in
`src/script.js` (lines 123-133): text content plus the added CSS kind
class (`error` by default, the only kind the source ever uses). -/
structure Notif where
  message : String
  kind : String
deriving DecidableEq

/-- View state of the SVG-to-code page served by `src/script.js`: the
`hidden` classes of the placeholder and output regions, the preview
container's markup, the `svgCode` textarea value, the native file input's
value, and the current toast (if any).  On this page the `downloadBtn`
element does not exist. -/
structure SvgState where
  outputPlaceholderHidden : Bool
  outputContentHidden : Bool
  svgPreview : String
  svgCode : String
  fileInput : String
  notif : Option Notif
deriving DecidableEq

/-- The page's state on load: placeholder visible, output hidden, every
text slot empty, no toast. -/
def initSvgState : SvgState :=
  { outputPlaceholderHidden := false
    outputContentHidden := true
    svgPreview := ""
    svgCode := ""
    fileInput := ""
    notif := none }

/-- `showNotification` on the SVG page (`src/script.js` lines 123-133):
replaces any visible toast with the new message and kind class. -/
def showNotificationSvg (s : SvgState) (message : String) : SvgState :=
  { s with notif := some { message := message, kind := "error" } }

/-- `resetView` as it behaves on the SVG page (`src/script.js` lines
136-148): show the placeholder, hide the output, clear the preview, the
file input and the `svgCode` textarea (the `downloadBtn` branch is dead
on this page). -/
def resetViewSvg (s : SvgState) : SvgState :=
  { s with outputPlaceholderHidden := false
           outputContentHidden := true
           svgPreview := ""
           fileInput := ""
           svgCode := "" }

/-- `processSvgFile` (`src/script.js` lines 197-231) with the read and
parse callbacks made explicit: no file → immediate return; MIME other
than `image/svg+xml` → invalid-type toast only; read success with a
parser-error marker → malformed toast then `resetView`; read success with
a clean parse → store the text in the preview and the textarea and swap
placeholder for output; read failure → read-error toast then `resetView`. -/
def processSvgFile (parseOk : String → Bool) (file : Option JsFile)
    (read : ReadResult) (s : SvgState) : SvgState :=
  match file with
  | none => s
  | some f =>
    if f.type ≠ "image/svg+xml" then
      showNotificationSvg s "Invalid file type. Please upload an SVG."
    else
      match read with
      | .ok svgContent =>
        if parseOk svgContent then
          { s with svgPreview := svgContent
                   svgCode := svgContent
                   outputPlaceholderHidden := true
                   outputContentHidden := false }
        else
          resetViewSvg (showNotificationSvg s "Malformed SVG file.")
      | .err => resetViewSvg (showNotificationSvg s "Could not read the file.")

/-- Whether `processSvgFile` reaches `reader.readAsText(file)`: both early
returns (absent file, wrong MIME) happen before the `FileReader` is
created. -/
def svgReadStarted (file : Option JsFile) : Bool :=
  match file with
  | none => false
  | some f => f.type == "image/svg+xml"

/-- View state of the standalone SVG page of `src/unnamed/part_000`:
`uploadView` / `previewContainer` visibility, the preview `img` source
(the page renders via a data URI image), the `svgCode` textarea, the file
input, and whether the custom alert box is on screen. -/
structure P0State where
  uploadViewHidden : Bool
  previewContainerHidden : Bool
  svgPreviewImgSrc : String
  svgCode : String
  fileInput : String
  alertShown : Bool
deriving DecidableEq

/-- The `part_000` page's state on load. -/
def initP0State : P0State :=
  { uploadViewHidden := false
    previewContainerHidden := true
    svgPreviewImgSrc := ""
    svgCode := ""
    fileInput := ""
    alertShown := false }

/-- `handleFile` (`src/unnamed/part_000` lines 50-94) with the read
callback and the browser's `encodeURIComponent` made explicit: a present
file of MIME `image/svg+xml` is read; on read success the raw text goes
verbatim into the textarea, the preview image points at
`data:image/svg+xml,` plus the percent-encoded text, and the views swap
(no well-formedness check happens); the read has no error handler, so a
failed read changes nothing; an absent file or any other MIME shows the
custom alert and touches nothing else. -/
def handleFile (encode : String → String) (file : Option JsFile)
    (read : ReadResult) (s : P0State) : P0State :=
  match file with
  | some f =>
    if f.type = "image/svg+xml" then
      match read with
      | .ok svgContent =>
        { s with svgPreviewImgSrc := "data:image/svg+xml," ++ encode svgContent
                 svgCode := svgContent
                 uploadViewHidden := true
                 previewContainerHidden := false }
      | .err => s
    else { s with alertShown := true }
  | none => { s with alertShown := true }

/-- Claim C1: a valid SVG byte stream accepted by the SVG processor (MIME
`image/svg+xml`, read succeeding, parser reporting no error marker) is
stored verbatim: both `processSvgFile` of `src/script.js` and `handleFile`
of `src/unnamed/part_000` put the decoded text unchanged into the
`svgCode` textarea and switch the view to Result (placeholder/upload view
hidden, output/preview shown). -/
theorem c1_valid_svg_roundtrip (parseOk : String → Bool)
    (encode : String → String) (f : JsFile) (content : String)
    (s : SvgState) (p : P0State)
    (htype : f.type = "image/svg+xml") (hparse : parseOk content = true) :
    processSvgFile parseOk (some f) (.ok content) s =
      { s with svgPreview := content
               svgCode := content
               outputPlaceholderHidden := true
               outputContentHidden := false } ∧
    handleFile encode (some f) (.ok content) p =
      { p with svgPreviewImgSrc := "data:image/svg+xml," ++ encode content
               svgCode := content
               uploadViewHidden := true
               previewContainerHidden := false } := by
  constructor
  · simp [processSvgFile, htype, hparse]
  · simp [handleFile, htype]

/-- Witness for C1 at the spec's own scenario file
`<svg xmlns="http://www.w3.org/2000/svg"><circle r="5"/></svg>`. -/
theorem c1_valid_svg_roundtrip_witness :
    (JsFile.mk "image/svg+xml").type = "image/svg+xml" ∧
    (fun _ : String => true)
      "<svg xmlns=\"http://www.w3.org/2000/svg\"><circle r=\"5\"/></svg>" = true ∧
    (processSvgFile (fun _ => true) (some (JsFile.mk "image/svg+xml"))
        (.ok "<svg xmlns=\"http://www.w3.org/2000/svg\"><circle r=\"5\"/></svg>")
        initSvgState).svgCode =
      "<svg xmlns=\"http://www.w3.org/2000/svg\"><circle r=\"5\"/></svg>" := by
  refine ⟨rfl, rfl, ?_⟩
  rw [(c1_valid_svg_roundtrip (fun _ => true) (fun s => s) (JsFile.mk "image/svg+xml")
      "<svg xmlns=\"http://www.w3.org/2000/svg\"><circle r=\"5\"/></svg>"
      initSvgState initP0State rfl rfl).1]

/-- String concatenation re-associates; used to compare differently
bracketed assemblies of the same markup. -/
theorem sAppend_assoc (a b c : String) : a ++ b ++ c = a ++ (b ++ c) := by
  apply String.ext
  simp [String.data_append]

/-- Three leading segments of a right-nested concatenation can be grouped
together. -/
theorem sAppend_merge3 (a b c x : String) :
    a ++ (b ++ (c ++ x)) = (a ++ b ++ c) ++ x := by
  simp [sAppend_assoc]

/-- View state of the image-to-SVG page served by `src/script.js`: the
shared placeholder/output visibility and preview markup, the
`downloadBtn.dataset.svgContent` slot cleared by `resetView`, the
`currentSvgContent` closure variable holding the synthesized wrapper, the
file input, and the toast. -/
structure ImgState where
  outputPlaceholderHidden : Bool
  outputContentHidden : Bool
  svgPreview : String
  downloadData : String
  currentSvgContent : String
  fileInput : String
  notif : Option Notif
deriving DecidableEq

/-- The image page's state on load. -/
def initImgState : ImgState :=
  { outputPlaceholderHidden := false
    outputContentHidden := true
    svgPreview := ""
    downloadData := ""
    currentSvgContent := ""
    fileInput := ""
    notif := none }

/-- `showNotification` on the image page (`src/script.js` lines 123-133). -/
def showNotificationImg (s : ImgState) (message : String) : ImgState :=
  { s with notif := some { message := message, kind := "error" } }

/-- `resetView` as the plain closure behaves on the image page
(`src/script.js` lines 136-148): show placeholder, hide output, clear
preview, file input and `downloadBtn.dataset.svgContent` (the `svgCode`
branch is dead on this page). It does NOT clear `currentSvgContent`. -/
def resetViewImg (s : ImgState) : ImgState :=
  { s with outputPlaceholderHidden := false
           outputContentHidden := true
           svgPreview := ""
           fileInput := ""
           downloadData := "" }

/-- The page-specific override `window.resetView` (`src/script.js` lines
308-312): the plain reset plus clearing `currentSvgContent`. -/
def windowResetViewImg (s : ImgState) : ImgState :=
  { resetViewImg s with currentSvgContent := "" }

/-- The template literal of `src/script.js` line 269, verbatim: the
wrapper SVG synthesized from the decoded intrinsic `width`/`height` and
the `readAsDataURL` result interpolated as `href`. -/
def mkWrapperSvg (width height : Nat) (dataUri : String) : String :=
  "<svg xmlns=\"http://www.w3.org/2000/svg\" width=\"" ++ toString width ++
    "\" height=\"" ++ toString height ++ "\" viewBox=\"0 0 " ++ toString width ++
    " " ++ toString height ++ "\">\n  <image href=\"" ++ dataUri ++
    "\" width=\"" ++ toString width ++ "\" height=\"" ++ toString height ++ "\"/>\n</svg>"

/-- Root open tag demanded by the spec: an `svg` element declaring
exactly `width=W`, `height=H` and `viewBox="0 0 W H"`. -/
def rootOpenTag (w h : Nat) : String :=
  "<svg xmlns=\"http://www.w3.org/2000/svg\" width=\"" ++ toString w ++
    "\" height=\"" ++ toString h ++ "\" viewBox=\"0 0 " ++ toString w ++
    " " ++ toString h ++ "\">"

/-- Sole child element demanded by the spec: one `image` element whose
reference is the data URI and whose width/height mirror the outer SVG. -/
def imageElem (uri : String) (w h : Nat) : String :=
  "<image href=\"" ++ uri ++ "\" width=\"" ++ toString w ++
    "\" height=\"" ++ toString h ++ "\"/>"

/-- The `String.prototype.startsWith` test used by the MIME guard,
expressed over the character lists so that it evaluates by kernel
reduction. -/
def jsStartsWith (s pre : String) : Bool := pre.data.isPrefixOf s.data

/-- `processImageFile` (`src/script.js` lines 256-286) with read and
decode callbacks explicit: no file → immediate return; MIME without the
`image/` prefix → invalid-type toast only; read success then decode
success → synthesize the wrapper into `currentSvgContent` and the
preview and swap placeholder for output; read success then decode failure
(`img.onerror`) → load-error toast only, view untouched; read failure
(`reader.onerror`) → read-error toast then the PLAIN `resetView` (not the
`window.resetView` override). -/
def processImageFile (file : Option JsFile) (read : ReadResult)
    (decode : DecodeResult) (s : ImgState) : ImgState :=
  match file with
  | none => s
  | some f =>
    if jsStartsWith f.type "image/" then
      match read with
      | .ok dataUri =>
        match decode with
        | .ok width height =>
          { s with currentSvgContent := mkWrapperSvg width height dataUri
                   svgPreview := mkWrapperSvg width height dataUri
                   outputPlaceholderHidden := true
                   outputContentHidden := false }
        | .err => showNotificationImg s "Could not load the image file."
      | .err => resetViewImg (showNotificationImg s "Could not read the file.")
    else
      showNotificationImg s "Invalid file type. Please upload a PNG or JPG."

/-- Whether `processImageFile` reaches `reader.readAsDataURL(file)`: both
early returns (absent file, MIME without the `image/` prefix) happen
before the `FileReader` is created. -/
def imgReadStarted (file : Option JsFile) : Bool :=
  match file with
  | none => false
  | some f => jsStartsWith f.type "image/"

/-- Claim C4: for every decoded intrinsic width and height and every data
URI, the synthesized wrapper text is exactly a root element declaring
`width=W`, `height=H` and `viewBox="0 0 W H"`, whose sole content is one
`image` element referencing the data URI with the same width and height. -/
theorem c4_wrapper_shape (w h : Nat) (uri : String) :
    mkWrapperSvg w h uri =
      rootOpenTag w h ++ "\n  " ++ imageElem uri w h ++ "\n</svg>" := by
  simp only [mkWrapperSvg, rootOpenTag, imageElem, sAppend_assoc]
  rw [sAppend_merge3 "\">" "\n  " "<image href=\""]
  rfl

/-- The `resetBtn` click handler of `src/unnamed/part_000` (lines
140-148): show the upload view, hide the preview container, clear the
file input, the preview and the textarea. -/
def resetP0 (s : P0State) : P0State :=
  { s with uploadViewHidden := false
           previewContainerHidden := true
           fileInput := ""
           svgPreviewImgSrc := ""
           svgCode := "" }

/-- The `clearBtn` click handler on the SVG page (`src/script.js` lines
171-188) with the dialog resolution explicit: if the placeholder is not
hidden the handler returns before any dialog; otherwise the confirmation
box is shown and `choice` is its resolution (`false` covers both the
Cancel button and dismissal by clicking the overlay, which `showMsgBox`
resolves to `false`).  Returns the new state and whether the dialog was
shown.  On this page `window.resetView` is undefined, so the plain
`resetView` runs on confirmation. -/
def clearActionSvg (s : SvgState) (choice : Bool) : SvgState × Bool :=
  if s.outputPlaceholderHidden = false then (s, false)
  else ((if choice then resetViewSvg s else s), true)

/-- The same `clearBtn` handler on the image page, where the
`window.resetView` override (clearing `currentSvgContent` too) runs on
confirmation. -/
def clearActionImg (s : ImgState) (choice : Bool) : ImgState × Bool :=
  if s.outputPlaceholderHidden = false then (s, false)
  else ((if choice then windowResetViewImg s else s), true)

/-- Theme-related state shared by both implementations: the `dark` class
on the document root, the persisted `theme` entry in local storage
(`none` = no entry yet), and the `hidden` classes of the two toggle
icons. -/
structure ThemeState where
  rootDark : Bool
  stored : Option String
  darkIconHidden : Bool
  lightIconHidden : Bool
deriving DecidableEq

/-- `updateThemeIcons(isDark)` of `src/script.js` (lines 104-109):
`classList.toggle('hidden', !isDark)` on the dark icon and
`classList.toggle('hidden', isDark)` on the light icon. -/
def updateThemeIcons (s : ThemeState) (isDark : Bool) : ThemeState :=
  { s with darkIconHidden := !isDark, lightIconHidden := isDark }

/-- The theme toggle click handler of `src/script.js` (lines 111-117):
flip the root `dark` class, persist `dark`/`light` accordingly, update
the icons. -/
def themeToggle (s : ThemeState) : ThemeState :=
  let isDark := !s.rootDark
  updateThemeIcons
    { s with rootDark := isDark
             stored := some (if isDark then "dark" else "light") } isDark

/-- `updateThemeIcons()` of `src/unnamed/part_000` (lines 19-29): in dark
mode show the light icon and hide the dark icon, otherwise the reverse
(note: the opposite icon convention from `src/script.js`). -/
def updateThemeIconsP0 (s : ThemeState) : ThemeState :=
  if s.rootDark then { s with lightIconHidden := false, darkIconHidden := true }
  else { s with darkIconHidden := false, lightIconHidden := true }

/-- The theme toggle click handler of `src/unnamed/part_000` (lines
35-43): flip the root `dark` class, persist, update icons per that
file's convention. -/
def themeToggleP0 (s : ThemeState) : ThemeState :=
  let s1 := { s with rootDark := !s.rootDark }
  updateThemeIconsP0
    { s1 with stored := some (if s1.rootDark then "dark" else "light") }

/-- A concrete stand-in for the browser parser's verdict: it reports a
parser-error marker exactly for the string `<open` (which no XML parser
accepts — its single tag never closes). -/
def demoParseVerdict (c : String) : Bool := c != "<open"

/-- The spec's Document State invariant on the image page:
`currentSvgContent` is non-empty exactly when the Result view is shown
(placeholder hidden, output visible). -/
@[reducible] def imgInv (s : ImgState) : Prop :=
  (s.currentSvgContent ≠ "") ↔
    (s.outputPlaceholderHidden = true ∧ s.outputContentHidden = false)

/-- Image page after one successful conversion of a 2×2 raster file:
the Result view shows the synthesized wrapper. -/
def c5FirstUpload : ImgState :=
  processImageFile (some (JsFile.mk "image/png"))
    (.ok "data:image/png;base64,iVBORw0KGgo=") (.ok 2 2) initImgState

/-- The same page after a second selection whose `FileReader` errors:
`reader.onerror` calls the plain `resetView`, not the `window.resetView`
override. -/
def c5SecondUpload : ImgState :=
  processImageFile (some (JsFile.mk "image/png")) .err .err c5FirstUpload

/-- Image page after one successful conversion of a 3×4 raster file. -/
def c6FirstUpload : ImgState :=
  processImageFile (some (JsFile.mk "image/png"))
    (.ok "data:image/png;base64,iVBORw0KGgo=") (.ok 3 4) initImgState

/-- The same page after a second selection that reads fine but whose
image decode fails (`img.onerror`). -/
def c6FailedDecode : ImgState :=
  processImageFile (some (JsFile.mk "image/png"))
    (.ok "data:image/gif;base64,R0lGOD") .err c6FirstUpload

/-- A freshly visited page: light mode, no persisted theme entry yet,
and both toggle icons still hidden. -/
def c8FreshState : ThemeState :=
  { rootDark := false, stored := none, darkIconHidden := true, lightIconHidden := true }

/-- Claim C2 as stated is false for `src/unnamed/part_000`: `handleFile`
performs no well-formedness check, so the input `<open` — which the
parser verdict flags as malformed — is accepted, displayed in the Result
view (preview container shown) and stored in the textarea, with no alert. -/
theorem c2_counterexample :
    demoParseVerdict "<open" = false ∧
    (handleFile (fun c => c) (some (JsFile.mk "image/svg+xml")) (.ok "<open")
        initP0State).previewContainerHidden = false ∧
    (handleFile (fun c => c) (some (JsFile.mk "image/svg+xml")) (.ok "<open")
        initP0State).svgCode = "<open" ∧
    (handleFile (fun c => c) (some (JsFile.mk "image/svg+xml")) (.ok "<open")
        initP0State).alertShown = false := by
  refine ⟨by decide, ?_, ?_, ?_⟩ <;> rfl

/-- Claim C2 amended: in `src/script.js`, `processSvgFile` on a read that
parses with an error marker shows the `Malformed SVG file.` toast and
resets the view to Placeholder (placeholder shown, output hidden, stored
text cleared); `handleFile` of `src/unnamed/part_000` performs no such
check and displays any file of SVG MIME type. -/
theorem c2_malformed_svg_resets (parseOk : String → Bool) (f : JsFile)
    (content : String) (s : SvgState)
    (htype : f.type = "image/svg+xml") (hparse : parseOk content = false) :
    processSvgFile parseOk (some f) (.ok content) s =
      resetViewSvg (showNotificationSvg s "Malformed SVG file.") ∧
    (processSvgFile parseOk (some f) (.ok content) s).outputPlaceholderHidden = false ∧
    (processSvgFile parseOk (some f) (.ok content) s).outputContentHidden = true ∧
    (processSvgFile parseOk (some f) (.ok content) s).svgCode = "" ∧
    (processSvgFile parseOk (some f) (.ok content) s).notif =
      some { message := "Malformed SVG file.", kind := "error" } := by
  refine ⟨?_, ?_, ?_, ?_, ?_⟩ <;>
    simp [processSvgFile, htype, hparse, resetViewSvg, showNotificationSvg]

/-- Witness for the amended C2 at the concrete malformed input `<open`. -/
theorem c2_malformed_svg_resets_witness :
    (JsFile.mk "image/svg+xml").type = "image/svg+xml" ∧
    demoParseVerdict "<open" = false ∧
    (processSvgFile demoParseVerdict (some (JsFile.mk "image/svg+xml"))
        (.ok "<open") initSvgState).outputPlaceholderHidden = false :=
  ⟨rfl, by decide,
    (c2_malformed_svg_resets demoParseVerdict (JsFile.mk "image/svg+xml")
      "<open" initSvgState rfl (by decide)).2.1⟩

/-- Claim C3 as stated is false: routing is per page, not by a single
MIME table.  On the SVG page a raster file (`image/png`) is not routed to
the Image Wrapper but rejected with the invalid-type toast and no read;
on the image page the SVG MIME type `image/svg+xml` is not routed to the
SVG Processor but accepted by the Image Wrapper's read (its prefix check
passes). -/
theorem c3_counterexample :
    processSvgFile (fun _ => true) (some (JsFile.mk "image/png")) .err initSvgState =
      showNotificationSvg initSvgState "Invalid file type. Please upload an SVG." ∧
    svgReadStarted (some (JsFile.mk "image/png")) = false ∧
    imgReadStarted (some (JsFile.mk "image/svg+xml")) = true := by
  refine ⟨?_, by decide, by decide⟩
  rfl

/-- Claim C3 amended: each page checks MIME itself.  The SVG page accepts
exactly `image/svg+xml` and rejects every other type with the
invalid-type toast, starting no read and leaving everything but the toast
unchanged; the image page accepts exactly the types with prefix `image/`
(hence also `image/svg+xml`) and rejects the rest likewise; the
`part_000` page accepts exactly `image/svg+xml` and otherwise shows its
alert and changes nothing else. -/
theorem c3_routing_per_page (parseOk : String → Bool) (encode : String → String)
    (f g : JsFile) (r r2 r3 : ReadResult) (d : DecodeResult)
    (s : SvgState) (t : ImgState) (p : P0State)
    (hf : f.type ≠ "image/svg+xml") (hg : jsStartsWith g.type "image/" = false) :
    processSvgFile parseOk (some f) r s =
      showNotificationSvg s "Invalid file type. Please upload an SVG." ∧
    svgReadStarted (some f) = false ∧
    processImageFile (some g) r2 d t =
      showNotificationImg t "Invalid file type. Please upload a PNG or JPG." ∧
    imgReadStarted (some g) = false ∧
    handleFile encode (some f) r3 p = { p with alertShown := true } ∧
    (∀ e : JsFile, e.type = "image/svg+xml" → svgReadStarted (some e) = true) ∧
    (∀ e : JsFile, jsStartsWith e.type "image/" = true → imgReadStarted (some e) = true) := by
  refine ⟨?_, ?_, ?_, ?_, ?_, ?_, ?_⟩
  · simp [processSvgFile, hf]
  · simp [svgReadStarted, hf]
  · simp [processImageFile, hg]
  · simp [imgReadStarted, hg]
  · simp [handleFile, hf]
  · intro e he; simp [svgReadStarted, he]
  · intro e he; simp [imgReadStarted, he]

/-- Witness for the amended C3: a raster file on the SVG page and a plain
text file on the image page, both rejected with a toast and no read. -/
theorem c3_routing_per_page_witness :
    (JsFile.mk "image/png").type ≠ "image/svg+xml" ∧
    jsStartsWith (JsFile.mk "text/plain").type "image/" = false ∧
    processImageFile (some (JsFile.mk "text/plain")) .err .err initImgState =
      showNotificationImg initImgState "Invalid file type. Please upload a PNG or JPG." :=
  ⟨by decide, by decide,
    (c3_routing_per_page (fun _ => true) (fun c => c) (JsFile.mk "image/png")
      (JsFile.mk "text/plain") .err .err .err .err initSvgState initImgState
      initP0State (by decide) (by decide)).2.2.1⟩

/-- Claim C5 names an invariant the image page violates: after a
successful conversion (Result shown, wrapper cached) a second selection
whose read fails makes `reader.onerror` call the PLAIN `resetView`
instead of the `window.resetView` override, so the view returns to
Placeholder while `currentSvgContent` still holds the previous wrapper —
`currentSvgContent` is non-empty with no Result shown, contradicting the
invariant (and the override's own stated purpose in the source comments,
lines 307-314). -/
theorem c5_stale_wrapper_bug :
    c5FirstUpload.outputPlaceholderHidden = true ∧
    c5FirstUpload.outputContentHidden = false ∧
    c5FirstUpload.currentSvgContent ≠ "" ∧
    c5SecondUpload.outputPlaceholderHidden = false ∧
    c5SecondUpload.outputContentHidden = true ∧
    c5SecondUpload.currentSvgContent = c5FirstUpload.currentSvgContent ∧
    ¬ imgInv c5SecondUpload := by
  decide

/-- Claim C6 as stated is false: when the image decode fails after a
Result is already displayed, `img.onerror` only shows a toast — the
previous Result view stays on screen, so Document State neither remains
at nor reverts to Placeholder. -/
theorem c6_counterexample :
    c6FirstUpload.outputPlaceholderHidden = true ∧
    c6FailedDecode.outputPlaceholderHidden = true ∧
    c6FailedDecode.outputContentHidden = false ∧
    c6FailedDecode.notif =
      some { message := "Could not load the image file.", kind := "error" } := by
  decide

/-- Claim C6 amended: on decode failure a notification is shown and the
view is otherwise left exactly as it was — from Placeholder it stays at
Placeholder, and a previously displayed Result stays displayed (only a
read failure resets the view). -/
theorem c6_decode_error_notifies_only (f : JsFile) (uri : String) (s : ImgState)
    (h : jsStartsWith f.type "image/" = true) :
    processImageFile (some f) (.ok uri) .err s =
      showNotificationImg s "Could not load the image file." ∧
    (processImageFile (some f) (.ok uri) .err s).outputPlaceholderHidden =
      s.outputPlaceholderHidden ∧
    (processImageFile (some f) (.ok uri) .err s).outputContentHidden =
      s.outputContentHidden ∧
    (processImageFile (some f) (.ok uri) .err s).currentSvgContent =
      s.currentSvgContent := by
  refine ⟨?_, ?_, ?_, ?_⟩ <;> simp [processImageFile, h, showNotificationImg]

/-- Witness for the amended C6 at a concrete corrupt raster file selected
from the fresh page. -/
theorem c6_decode_error_notifies_only_witness :
    jsStartsWith (JsFile.mk "image/png").type "image/" = true ∧
    processImageFile (some (JsFile.mk "image/png")) (.ok "data:image/png;base64,Qg==")
        .err initImgState =
      showNotificationImg initImgState "Could not load the image file." :=
  ⟨by decide,
    (c6_decode_error_notifies_only (JsFile.mk "image/png")
      "data:image/png;base64,Qg==" initImgState (by decide)).1⟩

/-- Claim C7: every reset entry point is idempotent — the plain
`resetView` on the SVG page, the plain and overridden resets on the image
page, and the `resetBtn` handler of `part_000` — and one application
already yields the cleared Placeholder state (placeholder/upload view
visible, output/preview hidden, cached text and markup cleared, file
input selection cleared). -/
theorem c7_reset_idempotent (s : SvgState) (t : ImgState) (u : P0State) :
    resetViewSvg (resetViewSvg s) = resetViewSvg s ∧
    resetViewImg (resetViewImg t) = resetViewImg t ∧
    windowResetViewImg (windowResetViewImg t) = windowResetViewImg t ∧
    resetP0 (resetP0 u) = resetP0 u ∧
    (resetViewSvg s).outputPlaceholderHidden = false ∧
    (resetViewSvg s).outputContentHidden = true ∧
    (resetViewSvg s).svgCode = "" ∧
    (resetViewSvg s).svgPreview = "" ∧
    (resetViewSvg s).fileInput = "" ∧
    (windowResetViewImg t).outputPlaceholderHidden = false ∧
    (windowResetViewImg t).outputContentHidden = true ∧
    (windowResetViewImg t).currentSvgContent = "" ∧
    (windowResetViewImg t).downloadData = "" ∧
    (windowResetViewImg t).fileInput = "" ∧
    (resetP0 u).uploadViewHidden = false ∧
    (resetP0 u).previewContainerHidden = true ∧
    (resetP0 u).svgCode = "" ∧
    (resetP0 u).svgPreviewImgSrc = "" ∧
    (resetP0 u).fileInput = "" := by
  refine ⟨?_, ?_, ?_, ?_, ?_, ?_, ?_, ?_, ?_, ?_, ?_, ?_, ?_, ?_, ?_, ?_, ?_, ?_, ?_⟩ <;> rfl

/-- Claim C8 as stated is false at a freshly visited page: with no
persisted entry and both icons hidden, toggling twice leaves the entry
set to `light` (not absent as before) and the light icon visible (not
hidden as before). -/
theorem c8_counterexample :
    (themeToggle (themeToggle c8FreshState)).stored ≠ c8FreshState.stored ∧
    (themeToggle (themeToggle c8FreshState)).lightIconHidden ≠
      c8FreshState.lightIconHidden := by
  decide

/-- Claim C8 amended: toggling twice always restores the root `dark`
class, and it restores the persisted entry and the icon flags exactly
when they started consistent with the root class (entry present and
matching, icons matching each implementation's own convention) — the
configuration initialization establishes.  This holds for the toggle of
`src/script.js` and for the one of `src/unnamed/part_000`. -/
theorem c8_toggle_involution (s t : ThemeState)
    (hs : s.stored = some (if s.rootDark then "dark" else "light"))
    (hd : s.darkIconHidden = !s.rootDark)
    (hl : s.lightIconHidden = s.rootDark)
    (ht : t.stored = some (if t.rootDark then "dark" else "light"))
    (htd : t.darkIconHidden = t.rootDark)
    (htl : t.lightIconHidden = !t.rootDark) :
    themeToggle (themeToggle s) = s ∧
    themeToggleP0 (themeToggleP0 t) = t ∧
    (∀ u : ThemeState, (themeToggle (themeToggle u)).rootDark = u.rootDark) ∧
    (∀ u : ThemeState, (themeToggleP0 (themeToggleP0 u)).rootDark = u.rootDark) := by
  refine ⟨?_, ?_, ?_, ?_⟩
  · obtain ⟨rd, st, di, li⟩ := s
    cases rd <;> simp_all [themeToggle, updateThemeIcons]
  · obtain ⟨rd2, st2, di2, li2⟩ := t
    cases rd2 <;> simp_all [themeToggleP0, updateThemeIconsP0]
  · intro u; obtain ⟨urd, ust, udi, uli⟩ := u; cases urd <;> rfl
  · intro u; obtain ⟨urd, ust, udi, uli⟩ := u; cases urd <;> rfl

/-- Witness for the amended C8 at concrete consistent dark-mode states
(one per implementation's icon convention). -/
theorem c8_toggle_involution_witness :
    (ThemeState.mk true (some "dark") false true).stored =
      some (if (ThemeState.mk true (some "dark") false true).rootDark
            then "dark" else "light") ∧
    themeToggle (themeToggle (ThemeState.mk true (some "dark") false true)) =
      ThemeState.mk true (some "dark") false true ∧
    themeToggleP0 (themeToggleP0 (ThemeState.mk true (some "dark") true false)) =
      ThemeState.mk true (some "dark") true false :=
  ⟨rfl,
    (c8_toggle_involution (ThemeState.mk true (some "dark") false true)
      (ThemeState.mk true (some "dark") true false)
      rfl rfl rfl rfl rfl rfl).1,
    (c8_toggle_involution (ThemeState.mk true (some "dark") false true)
      (ThemeState.mk true (some "dark") true false)
      rfl rfl rfl rfl rfl rfl).2.1⟩

/-- Claim C9: on both pages the Clear handler returns before any dialog
when the placeholder is visible (a complete no-op), the confirmation
dialog appears exactly when the placeholder is hidden (a Result is
shown), and a resolution of `false` — Cancel or dismissal — performs no
reset. -/
theorem c9_clear_guard (s : SvgState) (t : ImgState) (c d : Bool) :
    ((clearActionSvg s c).2 = s.outputPlaceholderHidden) ∧
    (s.outputPlaceholderHidden = false → clearActionSvg s c = (s, false)) ∧
    (c = false → (clearActionSvg s c).1 = s) ∧
    ((clearActionImg t d).2 = t.outputPlaceholderHidden) ∧
    (t.outputPlaceholderHidden = false → clearActionImg t d = (t, false)) ∧
    (d = false → (clearActionImg t d).1 = t) := by
  cases hs : s.outputPlaceholderHidden <;> cases ht : t.outputPlaceholderHidden <;>
    cases c <;> cases d <;> simp [clearActionSvg, clearActionImg, hs, ht]

/-- Witness for C9: clicking Clear on the freshly loaded pages changes
nothing and shows no dialog. -/
theorem c9_clear_guard_witness :
    initSvgState.outputPlaceholderHidden = false ∧
    clearActionSvg initSvgState true = (initSvgState, false) ∧
    clearActionImg initImgState true = (initImgState, false) :=
  ⟨rfl,
    (c9_clear_guard initSvgState initImgState true true).2.1 rfl,
    (c9_clear_guard initSvgState initImgState true true).2.2.2.2.1 rfl⟩

/-- Claim C10: calling either processor with an absent file (empty
selection or empty drop) is an immediate return — the state, including
any toast, is untouched and no read is started. -/
theorem c10_absent_file_noop (parseOk : String → Bool) (r r2 : ReadResult)
    (d : DecodeResult) (s : SvgState) (t : ImgState) :
    processSvgFile parseOk none r s = s ∧
    svgReadStarted none = false ∧
    processImageFile none r2 d t = t ∧
    imgReadStarted none = false :=
  ⟨rfl, rfl, rfl, rfl⟩
